import Mathlib

/-!
# Verification of the pylove LAN command layer

A shallow embedding of `pylove/lan.py` (the `GameModeWrapper` class): the
command builders (intensity clamping, action-letter encoding, pattern and
rule string construction, payload assembly) and the request/response
gateway (`send_command`, `_parse_json`, status-code classification).

Python values appearing in the code are embedded as follows: JSON values
decoded from a response body become the inductive `Json` (Python `int` and
`float` are kept distinct, as `json.loads` does; `bool` is separate but the
classification code treats it as an `int`, mirroring Python's
`isinstance(True, int)`); command payloads (Python dicts with string keys
built in a fixed insertion order) become association lists
`List (String × PyVal)`; the external `requests` transport is abstracted as
a `Transport` outcome, and Python exceptions escaping the method become
`Except PyErr`.  The standard-library `json.loads` is modelled by the
executable parser `json_loads` covering the JSON fragment the library
exchanges (null/true/false, integers, simple decimals, strings with the
basic escapes, arrays, objects); it is fuel-based, with fuel generous for
any input of the given length.
-/

namespace Pylove

/-- A decoded JSON value, as produced by Python `json.loads`. -/
inductive Json where
  | null
  | bool (b : Bool)
  | int (n : Int)
  | float (q : Rat)
  | str (s : String)
  | arr (elems : List Json)
  | obj (entries : List (String × Json))

/-- The opening-brace character, written via its code point. -/
def lbrace : Char := Char.ofNat 123

/-- The closing-brace character, written via its code point. -/
def rbrace : Char := Char.ofNat 125

/-- JSON insignificant whitespace. -/
def isJsonWs (c : Char) : Bool := c = ' ' || c = '\t' || c = '\n' || c = '\r'

/-- Drop leading JSON whitespace. -/
def skipWs : List Char → List Char
  | [] => []
  | c :: cs => if isJsonWs c then skipWs cs else c :: cs

/-- Consume an expected literal character sequence. -/
def dropLit : List Char → List Char → Option (List Char)
  | [], input => some input
  | p :: ps, c :: cs => if c = p then dropLit ps cs else none
  | _ :: _, [] => none

/-- The value of a JSON string escape character. -/
def escChar (e : Char) : Option Char :=
  if e = '"' then some '"'
  else if e = '\\' then some '\\'
  else if e = '/' then some '/'
  else if e = 'n' then some '\n'
  else if e = 't' then some '\t'
  else if e = 'r' then some '\r'
  else if e = 'b' then some (Char.ofNat 8)
  else if e = 'f' then some (Char.ofNat 12)
  else none

/-- Parse the body of a JSON string literal (after the opening quote),
returning the decoded characters and the remaining input. -/
def parseStringChars : Nat → List Char → Option (List Char × List Char)
  | 0, _ => none
  | _ + 1, [] => none
  | fuel + 1, c :: cs =>
    if c = '"' then some ([], cs)
    else if c = '\\' then
      match cs with
      | [] => none
      | e :: cs2 =>
        match escChar e with
        | some ch => (parseStringChars fuel cs2).map (fun r => (ch :: r.1, r.2))
        | none => none
    else (parseStringChars fuel cs).map (fun r => (c :: r.1, r.2))

/-- Split off the leading decimal digits. -/
def takeDigits : List Char → List Char × List Char
  | [] => ([], [])
  | c :: cs =>
    if c.isDigit then
      let r := takeDigits cs
      (c :: r.1, r.2)
    else ([], c :: cs)

/-- Numeric value of a list of decimal digits. -/
def digitsToNat (ds : List Char) : Nat :=
  ds.foldl (fun acc c => acc * 10 + (c.toNat - 48)) 0

/-- Parse a JSON number (optional minus, digits, optional fraction). -/
def parseNumberFrom (input : List Char) : Option (Json × List Char) :=
  let head := match input with
    | '-' :: rest => (true, rest)
    | _ => (false, input)
  let neg := head.1
  let body := takeDigits head.2
  if body.1.isEmpty then none
  else
    match body.2 with
    | '.' :: l3 =>
      let frac := takeDigits l3
      if frac.1.isEmpty then none
      else
        let q : Rat :=
          (digitsToNat body.1 : Rat) + (digitsToNat frac.1 : Rat) / ((10 : Rat) ^ frac.1.length)
        some (Json.float (if neg then -q else q), frac.2)
    | _ =>
      some (Json.int (if neg then -(digitsToNat body.1 : Int) else (digitsToNat body.1 : Int)),
        body.2)

mutual

/-- Parse one JSON value from the input. -/
def parseVal : Nat → List Char → Option (Json × List Char)
  | 0, _ => none
  | fuel + 1, input =>
    match skipWs input with
    | [] => none
    | c :: cs =>
      if c = 'n' then (dropLit ['u', 'l', 'l'] cs).map (fun rest => (Json.null, rest))
      else if c = 't' then (dropLit ['r', 'u', 'e'] cs).map (fun rest => (Json.bool true, rest))
      else if c = 'f' then (dropLit ['a', 'l', 's', 'e'] cs).map (fun rest => (Json.bool false, rest))
      else if c = '"' then
        (parseStringChars (cs.length + 1) cs).map (fun r => (Json.str (String.mk r.1), r.2))
      else if c = '[' then parseArrayItems fuel cs
      else if c = lbrace then parseObjItems fuel cs
      else parseNumberFrom (c :: cs)

/-- Parse the items of a JSON array (after the opening bracket). -/
def parseArrayItems : Nat → List Char → Option (Json × List Char)
  | 0, _ => none
  | fuel + 1, input =>
    match skipWs input with
    | ']' :: cs => some (Json.arr [], cs)
    | rest =>
      match parseVal fuel rest with
      | none => none
      | some (v, after) => parseArrayTail fuel [v] after

/-- Parse the continuation of a JSON array after at least one item. -/
def parseArrayTail : Nat → List Json → List Char → Option (Json × List Char)
  | 0, _, _ => none
  | fuel + 1, acc, input =>
    match skipWs input with
    | ']' :: cs => some (Json.arr acc.reverse, cs)
    | ',' :: cs =>
      match parseVal fuel cs with
      | none => none
      | some (v, after) => parseArrayTail fuel (v :: acc) after
    | _ => none

/-- Parse the entries of a JSON object (after the opening brace). -/
def parseObjItems : Nat → List Char → Option (Json × List Char)
  | 0, _ => none
  | fuel + 1, input =>
    match skipWs input with
    | [] => none
    | c :: cs =>
      if c = rbrace then some (Json.obj [], cs)
      else if c = '"' then
        match parseStringChars (cs.length + 1) cs with
        | none => none
        | some (key, rest) => parseObjPair fuel [] (String.mk key) rest
      else none

/-- Parse the colon and value after an object key, then the continuation. -/
def parseObjPair : Nat → List (String × Json) → String → List Char → Option (Json × List Char)
  | 0, _, _, _ => none
  | fuel + 1, acc, key, input =>
    match skipWs input with
    | ':' :: cs =>
      match parseVal fuel cs with
      | none => none
      | some (v, after) => parseObjTail fuel ((key, v) :: acc) after
    | _ => none

/-- Parse the continuation of a JSON object after a key/value pair. -/
def parseObjTail : Nat → List (String × Json) → List Char → Option (Json × List Char)
  | 0, _, _ => none
  | fuel + 1, acc, input =>
    match skipWs input with
    | [] => none
    | c :: cs =>
      if c = rbrace then some (Json.obj acc.reverse, cs)
      else if c = ',' then
        match skipWs cs with
        | [] => none
        | q :: cs2 =>
          if q = '"' then
            match parseStringChars (cs2.length + 1) cs2 with
            | none => none
            | some (key, rest) => parseObjPair fuel acc (String.mk key) rest
          else none
      else none

end

/-- Model of Python `json.loads`: parse a full JSON document, requiring the
whole input to be consumed; `none` models a raised `ValueError`. -/
def json_loads (s : String) : Option Json :=
  match parseVal (2 * s.length + 2) s.data with
  | some (j, rest) => if (skipWs rest).isEmpty then some j else none
  | none => none

mutual

/-- `GameModeWrapper._parse_json`: recursively walk a decoded value; a string
is re-parsed with `json.loads` and the parse result (when successful) is
returned as-is, without a further pass; dicts recurse per key and lists per
element; every other value is returned unchanged. -/
def parse_json : Json → Json
  | Json.str s =>
    match json_loads s with
    | some j => j
    | none => Json.str s
  | Json.obj kvs => Json.obj (parse_json_obj kvs)
  | Json.arr xs => Json.arr (parse_json_list xs)
  | Json.null => Json.null
  | Json.bool b => Json.bool b
  | Json.int n => Json.int n
  | Json.float q => Json.float q

/-- Elementwise `_parse_json` over a decoded list. -/
def parse_json_list : List Json → List Json
  | [] => []
  | x :: xs => parse_json x :: parse_json_list xs

/-- Per-key `_parse_json` over a decoded dict. -/
def parse_json_obj : List (String × Json) → List (String × Json)
  | [] => []
  | (k, v) :: rest => (k, parse_json v) :: parse_json_obj rest

end

/-- The `self.error_codes` table from `GameModeWrapper.__init__`:
`dict.get` on it becomes lookup in this function. -/
def error_codes : Int → Option String
  | 200 => some "OK"
  | 400 => some "Invalid Command"
  | 401 => some "Toy Not Found"
  | 402 => some "Toy Not Connected"
  | 403 => some "Toy Doesn\x27t Support This Command"
  | 404 => some "Invalid Parameter"
  | 500 => some "HTTP server not started or disabled"
  | 506 => some "Server Error. Restart Lovense Connect."
  | _ => none

/-- A single-quote character for Python `repr` rendering. -/
def squote : String := String.singleton (Char.ofNat 39)

mutual

/-- Python `repr` of a decoded JSON value (string escaping and float
formatting simplified; the claims only exercise scalars). -/
def pyRepr : Json → String
  | Json.null => "None"
  | Json.bool b => if b then "True" else "False"
  | Json.int n => toString n
  | Json.float q => toString q
  | Json.str s => squote ++ s ++ squote
  | Json.arr xs => "[" ++ String.intercalate ", " (pyReprList xs) ++ "]"
  | Json.obj kvs => "\x7b" ++ String.intercalate ", " (pyReprObj kvs) ++ "\x7d"

/-- `repr` of each element of a decoded list. -/
def pyReprList : List Json → List String
  | [] => []
  | x :: xs => pyRepr x :: pyReprList xs

/-- `repr` of each entry of a decoded dict. -/
def pyReprObj : List (String × Json) → List String
  | [] => []
  | (k, v) :: rest => (squote ++ k ++ squote ++ ": " ++ pyRepr v) :: pyReprObj rest

end

/-- Python `str` of a decoded JSON value (as interpolated by an f-string). -/
def pyStr : Json → String
  | Json.str s => s
  | j => pyRepr j

/-- Python `dict.get` on a decoded JSON object: the value at a key, or
`none` when the key is absent. -/
def dict_get (kvs : List (String × Json)) (key : String) : Option Json :=
  (kvs.find? (fun p => p.1 == key)).map Prod.snd

/-- Python `isinstance(code, int)` on an optional decoded value: true for an
`int` and also for a `bool` (in Python `bool` is a subclass of `int`). -/
def code_is_int : Option Json → Bool
  | some (Json.int _) => true
  | some (Json.bool _) => true
  | _ => false

/-- The `response_msg` string computed by `send_command` (lines 212-219):
an integer code is looked up in `error_codes` with default "Unknown Error";
anything else is reported as an unknown response code.  A `bool` code takes
the integer branch with value 1/0, as in Python. -/
def response_msg (response_json : List (String × Json)) : String :=
  let response_code := dict_get response_json "code"
  match response_code with
  | some (Json.int n) =>
    "Response: " ++ toString n ++ ", " ++ (error_codes n).getD "Unknown Error"
  | some (Json.bool b) =>
    "Response: " ++ (if b then "True" else "False") ++ ", " ++
      (error_codes (if b then 1 else 0)).getD "Unknown Error"
  | _ => "Response: Unknown response code " ++ pyStr (response_code.getD Json.null)

/-- A primitive value stored in a command payload.  Python `float`
parameters (`timeSec` and the loop durations) are embedded as `Rat`;
intensity values, documented as `int`, are embedded as `Int`. -/
inductive PyVal where
  | s (v : String)
  | i (v : Int)
  | f (v : Rat)
deriving DecidableEq

/-- A command payload: a Python dict with string keys, embedded as an
association list in the insertion order of the source. -/
abbrev Payload := List (String × PyVal)

/-- Python `dict` lookup on a payload (used to state key presence/absence). -/
def payload_get (payload : Payload) (key : String) : Option PyVal :=
  (payload.find? (fun p => p.1 == key)).map Prod.snd

/-- The instance state the claims touch: `self.last_command`. -/
structure GatewayState where
  last_command : Option Payload

/-- The outcome of the `requests.post` call in `send_command`, abstracting
the external transport: one of the three caught exception classes, a
missing response object, or a response with an HTTP status code and a
body text. -/
inductive Transport where
  | connectionError
  | timeout
  | requestException
  | noResponse
  | response (status : Nat) (body : String)

/-- A Python exception escaping `send_command` (raised outside its
`try`/`except` block). -/
inductive PyErr where
  | jsonDecodeError
  | attributeError
deriving DecidableEq

/-- The value `send_command` produces for a transport outcome (lines
170-224): every caught exception and every non-200 response yields `None`;
on a 200 response the body is decoded (`response.json()`, raising outside
any handler when the body is not JSON), normalized with `_parse_json`, and
`.get("code")` requires a dict (raising `AttributeError` otherwise);
the normalized response is returned whatever its status code is. -/
def send_command_result : Transport → Except PyErr (Option Json)
  | Transport.connectionError => Except.ok none
  | Transport.timeout => Except.ok none
  | Transport.requestException => Except.ok none
  | Transport.noResponse => Except.ok none
  | Transport.response status body =>
    -- `if not response`: a requests Response is falsy iff 400 <= status < 600
    if 400 ≤ status ∧ status < 600 then Except.ok none
    else if status ≠ 200 then Except.ok none
    else
      match json_loads body with
      | none => Except.error PyErr.jsonDecodeError
      | some j =>
        match parse_json j with
        | Json.obj kvs => Except.ok (some (Json.obj kvs))
        | _ => Except.error PyErr.attributeError

/-- `GameModeWrapper.send_command`: records the payload as
`self.last_command` before the network attempt (line 167), then produces
the result for the transport outcome.  The result never depends on the
prior state (logging only affects printed output). -/
def send_command (st : GatewayState) (command_data : Payload) (outcome : Transport) :
    GatewayState × Except PyErr (Option Json) :=
  ({ st with last_command := some command_data }, send_command_result outcome)

/-- A sequence of calls through the gateway, each with its transport
outcome, threading the instance state. -/
def run_calls (st : GatewayState) : List (Payload × Transport) → GatewayState
  | [] => st
  | c :: rest => run_calls (send_command st c.1 c.2).1 rest

/-- The `self._function_range` clamp table from `__init__`.  Keys are the
`Actions` string values (a `StrEnum` member equals its string, so `in` and
indexing work by string value). -/
def function_range : String → Option (Int × Int)
  | "Vibrate" => some (0, 20)
  | "Vibrate1" => some (0, 20)
  | "Vibrate2" => some (0, 20)
  | "Vibrate3" => some (0, 20)
  | "Rotate" => some (0, 20)
  | "Pump" => some (0, 3)
  | "Thrusting" => some (0, 20)
  | "Fingering" => some (0, 20)
  | "Suction" => some (0, 20)
  | "Depth" => some (0, 3)
  | "All" => some (0, 20)
  | _ => none

/-- `GameModeWrapper._function_clamp_range`: rebuild the action map, keeping
every key; a value whose action is in the range table is clamped with
`max(min(value, max_val), min_val)`, any other value passes unchanged. -/
def function_clamp_range : List (String × Int) → List (String × Int)
  | [] => []
  | p :: rest =>
    (match function_range p.1 with
     | some r => (p.1, max (min p.2 r.2) r.1)
     | none => (p.1, p.2)) :: function_clamp_range rest

/-- `GameModeWrapper.function_request`: clamp the actions, join the
`key:value` pairs with commas, and assemble the payload; each optional
argument contributes its key only when supplied. -/
def function_request (actions : List (String × Int)) (time : Rat)
    (loop_on_time : Option Rat) (loop_off_time : Option Rat)
    (toy_id : Option String) (stop_last : Option Bool) : Payload :=
  let clamped := function_clamp_range actions
  let action := String.intercalate "," (clamped.map (fun p => p.1 ++ ":" ++ toString p.2))
  [("command", PyVal.s "Function"), ("action", PyVal.s action),
   ("timeSec", PyVal.f time), ("apiVer", PyVal.i 1)] ++
  (match loop_on_time with
   | some t => [("loopRunningSec", PyVal.f (max t 1))]
   | none => []) ++
  (match loop_off_time with
   | some t => [("loopPauseSec", PyVal.f (max t 1))]
   | none => []) ++
  (match toy_id with
   | some t => [("toy", PyVal.s t)]
   | none => []) ++
  (match stop_last with
   | some b => [("stopPrevious", PyVal.i (if b then 1 else 0))]
   | none => [])

/-- An element of the `actions` list given to `_convert_actions_to_letters`
or `pattern_request`.  Every `Actions` member is itself a `str` (it is a
`StrEnum`), so strings and enum members share the `ofStr` constructor; the
`elif isinstance(action, Actions)` branch of the source is unreachable.
`other` stands for any non-string, non-`Actions` entry. -/
inductive ActionEntry where
  | ofStr (s : String)
  | other
deriving DecidableEq

/-- The `valid_letters` list of `_convert_actions_to_letters`. -/
def valid_letters : List Char := ['v', 'r', 'p', 't', 'f', 's', 'd']

/-- The letter-collecting loop of `_convert_actions_to_letters`: a nonempty
string contributes its lowercased first letter when it is a valid code and
is skipped otherwise; an empty string (not an `Actions` instance) or a
non-string entry aborts with `""`; at the end the collected codes are
comma-joined, or `""` when none were collected. -/
def convert_letters_go : List ActionEntry → List String → String
  | [], letter_codes =>
    if letter_codes.isEmpty then "" else String.intercalate "," letter_codes
  | ActionEntry.ofStr s :: rest, letter_codes =>
    if 0 < s.length then
      let letter := s.front.toLower
      if valid_letters.contains letter then
        convert_letters_go rest (letter_codes ++ [String.singleton letter])
      else convert_letters_go rest letter_codes
    else ""
  | ActionEntry.other :: _, _ => ""

/-- `GameModeWrapper._convert_actions_to_letters`. -/
def convert_actions_to_letters (actions : List ActionEntry) : String :=
  convert_letters_go actions []

/-- `GameModeWrapper.pattern_request_raw`: the payload built from raw rule
and strength strings (command "Pattern", protocol version 2, optional toy). -/
def pattern_request_raw (strength : String) (rule : String) (time : Rat)
    (toy_id : Option String) : Payload :=
  [("command", PyVal.s "Pattern"), ("rule", PyVal.s rule),
   ("strength", PyVal.s strength), ("timeSec", PyVal.f time), ("apiVer", PyVal.i 2)] ++
  (match toy_id with
   | some t => [("toy", PyVal.s t)]
   | none => [])

/-- `GameModeWrapper.pattern_request`: default the action list to
`[Actions.ALL]`, keep the first 50 pattern values clamped to `[0, 20]`,
clamp the interval to `[100, 1000]`, build the rule string (with an empty
feature field whenever `Actions.ALL` is among the actions) and the
semicolon-joined strength string, and delegate to `pattern_request_raw`. -/
def pattern_request (pattern : List Int) (actions : Option (List ActionEntry))
    (interval : Int) (time : Rat) (toy_id : Option String) : Payload :=
  let acts_list := actions.getD [ActionEntry.ofStr "All"]
  let pattern2 := (pattern.take 50).map (fun num => min (max 0 num) 20)
  let interval2 := min (max interval 100) 1000
  let acts := convert_actions_to_letters acts_list
  let rule := "V:1;F:" ++ acts ++ ";S:" ++ toString interval2 ++ "#"
  let rule2 := if ActionEntry.ofStr "All" ∈ acts_list
    then "V:1;F:;S:" ++ toString interval2 ++ "#"
    else rule
  let strength := String.intercalate ";" (pattern2.map (fun n => toString n))
  pattern_request_raw strength rule2 time toy_id

/-- The failure outcomes enumerated by the specification: each caught
exception class, a missing response object, or a non-200 HTTP status. -/
def transport_failure : Transport → Bool
  | Transport.response status _ => status != 200
  | _ => true

/-! ## Helper lemmas -/

theorem pattern_request_raw_rule (strength rule : String) (time : Rat)
    (toy_id : Option String) :
    payload_get (pattern_request_raw strength rule time toy_id) "rule" =
      some (PyVal.s rule) := rfl

theorem parse_json_obj_eq_map (kvs : List (String × Json)) :
    parse_json_obj kvs = kvs.map (fun p => (p.1, parse_json p.2)) := by
  induction kvs with
  | nil => rfl
  | cons hd tl ih =>
    cases hd
    simp [parse_json_obj, ih]

theorem parse_json_list_eq_map (xs : List Json) :
    parse_json_list xs = xs.map parse_json := by
  induction xs with
  | nil => rfl
  | cons hd tl ih => simp [parse_json_list, ih]

theorem convert_letters_abort_emptystr (pre post : List ActionEntry) (acc : List String) :
    convert_letters_go (pre ++ ActionEntry.ofStr "" :: post) acc = "" := by
  induction pre generalizing acc with
  | nil => rfl
  | cons hd tl ih =>
    cases hd with
    | ofStr s =>
      by_cases hlen : 0 < s.length
      · simp only [List.cons_append, convert_letters_go, hlen, if_true]
        split <;> exact ih _
      · simp [convert_letters_go, hlen]
    | other => rfl

theorem convert_letters_abort_other (pre post : List ActionEntry) (acc : List String) :
    convert_letters_go (pre ++ ActionEntry.other :: post) acc = "" := by
  induction pre generalizing acc with
  | nil => rfl
  | cons hd tl ih =>
    cases hd with
    | ofStr s =>
      by_cases hlen : 0 < s.length
      · simp only [List.cons_append, convert_letters_go, hlen, if_true]
        split <;> exact ih _
      · simp [convert_letters_go, hlen]
    | other => rfl

/-! ## Claims -/

/-- C1: For every payload and every simulated transport failure —
connection-establishment failure, timeout expiry, any other request-level
failure, a missing response object, or an HTTP status code other than
200 — `send_command` returns an empty result (`None`) and never raises an
exception past the gateway boundary. -/
theorem send_command_failure_empty (st : GatewayState) (command_data : Payload)
    (outcome : Transport) (h : transport_failure outcome = true) :
    (send_command st command_data outcome).2 = Except.ok none := by
  cases outcome with
  | connectionError => rfl
  | timeout => rfl
  | requestException => rfl
  | noResponse => rfl
  | response status body =>
    have h2 : status ≠ 200 := by simpa [transport_failure] using h
    by_cases hf : 400 ≤ status ∧ status < 600
    · simp [send_command, send_command_result, hf]
    · simp [send_command, send_command_result, hf, h2]

/-- Witness for C1: a concrete timeout and a concrete 503 response both
yield the empty result. -/
theorem send_command_failure_empty_witness :
    (send_command ⟨none⟩ [] Transport.timeout).2 = Except.ok none ∧
    (send_command ⟨none⟩ [] (Transport.response 503 "x")).2 = Except.ok none :=
  ⟨send_command_failure_empty ⟨none⟩ [] Transport.timeout rfl,
   send_command_failure_empty ⟨none⟩ [] (Transport.response 503 "x") rfl⟩

/-- C2: intensity clamping returns a mapping with identical keys in which
each value for an action with a declared range [min,max] equals
`max(min(v, max), min)` — 0-20 for the vibration channels (and the other
one-letter actions), 0-3 for Pump and Depth — and each value for an action
absent from the range table passes through unchanged. -/
theorem function_clamp_range_spec (actions : List (String × Int)) :
    (∀ i : Nat, (function_clamp_range actions)[i]? =
      (actions[i]?).map (fun p =>
        (p.1, match function_range p.1 with
              | some r => max (min p.2 r.2) r.1
              | none => p.2))) ∧
    function_range "Vibrate" = some (0, 20) ∧
    function_range "Vibrate1" = some (0, 20) ∧
    function_range "Vibrate2" = some (0, 20) ∧
    function_range "Vibrate3" = some (0, 20) ∧
    function_range "Rotate" = some (0, 20) ∧
    function_range "Thrusting" = some (0, 20) ∧
    function_range "Fingering" = some (0, 20) ∧
    function_range "Suction" = some (0, 20) ∧
    function_range "All" = some (0, 20) ∧
    function_range "Pump" = some (0, 3) ∧
    function_range "Depth" = some (0, 3) ∧
    function_range "NotAnAction" = none := by
  refine ⟨?_, rfl, rfl, rfl, rfl, rfl, rfl, rfl, rfl, rfl, rfl, rfl, rfl⟩
  intro i
  induction actions generalizing i with
  | nil => simp [function_clamp_range]
  | cons hd tl ih =>
    cases i with
    | zero => cases hr : function_range hd.1 <;> simp [function_clamp_range, hr]
    | succ n => simpa [function_clamp_range] using ih n

/-- C3: for every pattern and interval, the built strength string is
exactly the first 50 pattern values (longer input truncated), each clamped
to [0,20], joined with semicolons, and the built rule string is exactly
`V:1;F:<feature-letters-or-empty>;S:<interval>#` with the interval clamped
to `min(max(interval, 100), 1000)`. -/
theorem pattern_request_build_spec (pattern : List Int)
    (actions : Option (List ActionEntry)) (interval : Int) (time : Rat)
    (toy_id : Option String) :
    payload_get (pattern_request pattern actions interval time toy_id) "strength" =
      some (PyVal.s (String.intercalate ";"
        (((pattern.take 50).map (fun num => min (max 0 num) 20)).map (fun n => toString n)))) ∧
    payload_get (pattern_request pattern actions interval time toy_id) "rule" =
      some (PyVal.s ("V:1;F:" ++
        (if ActionEntry.ofStr "All" ∈ actions.getD [ActionEntry.ofStr "All"] then ""
         else convert_actions_to_letters (actions.getD [ActionEntry.ofStr "All"])) ++
        ";S:" ++ toString (min (max interval 100) 1000) ++ "#")) := by
  constructor
  · rfl
  · simp only [pattern_request]
    rw [pattern_request_raw_rule]
    split <;> rfl

/-- C4: the action-to-letter encoding maps `["Vibrate", "Rotate"]` to
`"v,r"`; any list containing an empty string, or a non-string non-`Actions`
entry, encodes to `""`; with actions `["Pump"]` and interval 250 the rule
is exactly `V:1;F:p;S:250#`, while with `["All"]` the feature field is
empty (`F:;`), not `F:a;`. -/
theorem action_letter_encoding_spec :
    convert_actions_to_letters [ActionEntry.ofStr "Vibrate", ActionEntry.ofStr "Rotate"] = "v,r" ∧
    (∀ pre post : List ActionEntry,
      convert_actions_to_letters (pre ++ ActionEntry.ofStr "" :: post) = "") ∧
    (∀ pre post : List ActionEntry,
      convert_actions_to_letters (pre ++ ActionEntry.other :: post) = "") ∧
    payload_get (pattern_request [] (some [ActionEntry.ofStr "Pump"]) 250 0 none) "rule" =
      some (PyVal.s "V:1;F:p;S:250#") ∧
    payload_get (pattern_request [] (some [ActionEntry.ofStr "All"]) 250 0 none) "rule" =
      some (PyVal.s "V:1;F:;S:250#") :=
  ⟨rfl,
   fun pre post => convert_letters_abort_emptystr pre post [],
   fun pre post => convert_letters_abort_other pre post [],
   rfl, rfl⟩

/-- C5: for every time and toy id, `pattern_request` with pattern
`[1,2,3,4,5,20]`, default interval 100 and default (`None`) actions
produces exactly the payload of
`pattern_request_raw "1;2;3;4;5;20" "V:1;F:;S:100#" time toy_id`. -/
theorem pattern_round_trip (time : Rat) (toy_id : Option String) :
    pattern_request [1, 2, 3, 4, 5, 20] none 100 time toy_id =
      pattern_request_raw "1;2;3;4;5;20" "V:1;F:;S:100#" time toy_id := rfl

/-- C6 (amended): response normalization walks the decoded value; every
string value that parses as JSON is replaced by the parse result (otherwise
left as a plain string), mappings recurse per key and sequences per element
unconditionally — so a field holding the string form of an object becomes
that object — but the result of a string parse is substituted as-is, with
no further pass over structures it contains. -/
theorem parse_json_normalization_spec :
    (∀ s : String, parse_json (Json.str s) =
      match json_loads s with
      | some j => j
      | none => Json.str s) ∧
    (∀ kvs : List (String × Json), parse_json (Json.obj kvs) =
      Json.obj (kvs.map (fun p => (p.1, parse_json p.2)))) ∧
    (∀ xs : List Json, parse_json (Json.arr xs) = Json.arr (xs.map parse_json)) ∧
    parse_json (Json.obj [("f", Json.str "\x7b\"a\":1\x7d")]) =
      Json.obj [("f", Json.obj [("a", Json.int 1)])] := by
  refine ⟨fun s => rfl, ?_, ?_, rfl⟩
  · intro kvs
    rw [parse_json, parse_json_obj_eq_map]
  · intro xs
    rw [parse_json, parse_json_list_eq_map]

/-- Counterexample to C6 as stated: a JSON-encoded string nested inside the
structure produced by an earlier string parse is NOT normalized further —
the inner value stays a plain string even though it parses as JSON. -/
theorem parse_json_no_second_pass :
    parse_json (Json.obj [("x", Json.str "\x7b\"a\": \"\x7b\\\"b\\\":1\x7d\"\x7d")]) =
      Json.obj [("x", Json.obj [("a", Json.str "\x7b\"b\":1\x7d")])] ∧
    json_loads "\x7b\"b\":1\x7d" = some (Json.obj [("b", Json.int 1)]) ∧
    Json.obj [("x", Json.obj [("a", Json.str "\x7b\"b\":1\x7d")])] ≠
      Json.obj [("x", Json.obj [("a", Json.obj [("b", Json.int 1)])])] := by
  refine ⟨rfl, rfl, ?_⟩
  simp

/-- C7: `function_request` builds a payload with command "Function", the
comma-joined `action:value` string over the clamped mapping, the requested
duration and protocol version 1; the loop-on and loop-off times (each
floored at 1), the target device identifier, and the stop-previous flag
(encoded 1 for true, 0 for false) contribute their keys exactly when the
caller supplies them, and the keys are absent otherwise. -/
theorem function_request_payload_spec (actions : List (String × Int)) (time : Rat)
    (loop_on_time loop_off_time : Option Rat) (toy_id : Option String)
    (stop_last : Option Bool) :
    payload_get (function_request actions time loop_on_time loop_off_time toy_id stop_last)
      "command" = some (PyVal.s "Function") ∧
    payload_get (function_request actions time loop_on_time loop_off_time toy_id stop_last)
      "action" = some (PyVal.s (String.intercalate ","
        ((function_clamp_range actions).map (fun p => p.1 ++ ":" ++ toString p.2)))) ∧
    payload_get (function_request actions time loop_on_time loop_off_time toy_id stop_last)
      "timeSec" = some (PyVal.f time) ∧
    payload_get (function_request actions time loop_on_time loop_off_time toy_id stop_last)
      "apiVer" = some (PyVal.i 1) ∧
    payload_get (function_request actions time loop_on_time loop_off_time toy_id stop_last)
      "loopRunningSec" = loop_on_time.map (fun t => PyVal.f (max t 1)) ∧
    payload_get (function_request actions time loop_on_time loop_off_time toy_id stop_last)
      "loopPauseSec" = loop_off_time.map (fun t => PyVal.f (max t 1)) ∧
    payload_get (function_request actions time loop_on_time loop_off_time toy_id stop_last)
      "toy" = toy_id.map (fun t => PyVal.s t) ∧
    payload_get (function_request actions time loop_on_time loop_off_time toy_id stop_last)
      "stopPrevious" = stop_last.map (fun b => PyVal.i (if b then 1 else 0)) := by
  cases loop_on_time <;> cases loop_off_time <;> cases toy_id <;> cases stop_last <;>
    exact ⟨rfl, rfl, rfl, rfl, rfl, rfl, rfl, rfl⟩

/-- C8 (amended): after a successful HTTP 200 call, the decoded body's
status code is classified — an integer code in the static table maps to its
tabulated description, in particular 402 to "Toy Not Connected" and 506 to
"Server Error. Restart Lovense Connect.", an unrecognized integer such as
999 to "Unknown Error", and a missing or non-integer code is reported as an
unknown response code — and in every one of these cases the normalized
response is still returned to the caller. -/
theorem status_lookup_spec :
    error_codes 402 = some "Toy Not Connected" ∧
    error_codes 506 = some "Server Error. Restart Lovense Connect." ∧
    response_msg [("code", Json.int 999)] = "Response: 999, Unknown Error" ∧
    (∀ (kvs : List (String × Json)) (n : Int), dict_get kvs "code" = some (Json.int n) →
      response_msg kvs = "Response: " ++ toString n ++ ", " ++
        (error_codes n).getD "Unknown Error") ∧
    (∀ kvs : List (String × Json), code_is_int (dict_get kvs "code") = false →
      response_msg kvs = "Response: Unknown response code " ++
        pyStr ((dict_get kvs "code").getD Json.null)) ∧
    (∀ (st : GatewayState) (command_data : Payload) (body : String) (j : Json)
        (kvs : List (String × Json)), json_loads body = some j → parse_json j = Json.obj kvs →
      (send_command st command_data (Transport.response 200 body)).2 =
        Except.ok (some (Json.obj kvs))) := by
  refine ⟨rfl, rfl, rfl, ?_, ?_, ?_⟩
  · intro kvs n h
    simp [response_msg, h]
  · intro kvs h
    rcases hc : dict_get kvs "code" with _ | j
    · simp [response_msg, hc]
    · cases j with
      | int n => rw [hc] at h; simp [code_is_int] at h
      | bool b => rw [hc] at h; simp [code_is_int] at h
      | null => simp [response_msg, hc]
      | float q => simp [response_msg, hc]
      | str s => simp [response_msg, hc]
      | arr xs => simp [response_msg, hc]
      | obj o => simp [response_msg, hc]
  · intro st command_data body j kvs hb hp
    simp [send_command, send_command_result, hb, hp]

/-- Witness for C8: the 402 description, the unknown-code report for a body
with no code field, and the returned normalized response for a concrete 200
call whose body carries the unrecognized code 999. -/
theorem status_lookup_spec_witness :
    response_msg [("code", Json.int 402)] = "Response: 402, Toy Not Connected" ∧
    response_msg [("status", Json.int 1)] = "Response: Unknown response code None" ∧
    (send_command ⟨none⟩ [] (Transport.response 200 "\x7b\"code\":999\x7d")).2 =
      Except.ok (some (Json.obj [("code", Json.int 999)])) := by
  refine ⟨?_, ?_, ?_⟩
  · rw [status_lookup_spec.2.2.2.1 [("code", Json.int 402)] 402 rfl]
    rfl
  · rw [status_lookup_spec.2.2.2.2.1 [("status", Json.int 1)] rfl]
    rfl
  · exact status_lookup_spec.2.2.2.2.2 ⟨none⟩ [] "\x7b\"code\":999\x7d"
      (Json.obj [("code", Json.int 999)]) [("code", Json.int 999)] rfl rfl

/-- Counterexample to C8 as stated: the code's 506 entry reads
"Server Error. Restart Lovense Connect.", not the claimed
"Server Error — restart required". -/
theorem status_lookup_506_counterexample :
    error_codes 506 ≠ some "Server Error — restart required" ∧
    error_codes 506 = some "Server Error. Restart Lovense Connect." := by
  refine ⟨?_, rfl⟩
  decide

/-- C9: for every sequence of calls through the gateway, after each call —
whatever its outcome — `last_command` holds exactly the payload most
recently attempted, because it is written before the network operation
begins. -/
theorem last_command_cache_spec (st : GatewayState)
    (calls : List (Payload × Transport)) (command_data : Payload)
    (outcome : Transport) :
    (send_command st command_data outcome).1.last_command = some command_data ∧
    (run_calls st (calls ++ [(command_data, outcome)])).last_command = some command_data := by
  refine ⟨rfl, ?_⟩
  induction calls generalizing st with
  | nil => rfl
  | cons hd tl ih => simpa [run_calls] using ih _

/-- C10: there are HTTP-200 outcomes for which `send_command` raises past
the gateway boundary instead of returning an empty result: a body that is
not valid JSON raises at `response.json()`, and a body decoding to a
non-mapping (a JSON array or number) raises at `.get("code")`, both outside
every exception handler. -/
theorem send_command_raises_on_malformed_body :
    (send_command ⟨none⟩ [] (Transport.response 200 "not json")).2 =
      Except.error PyErr.jsonDecodeError ∧
    (send_command ⟨none⟩ [] (Transport.response 200 "[1, 2]")).2 =
      Except.error PyErr.attributeError ∧
    (send_command ⟨none⟩ [] (Transport.response 200 "7")).2 =
      Except.error PyErr.attributeError :=
  ⟨rfl, rfl, rfl⟩

end Pylove
